import Mathlib

/-!
Shallow embedding of the mtap_sdk resilient request pipeline
(src/core/client.py, src/core/errors.py, src/core/config.py,
src/transport/http.py, src/session/base.py), together with theorems
settling the spec claims about it.

Modelling conventions:
- HTTP status codes are natural numbers.
- Python floats in the backoff computation are modelled as rationals.
- Values parsed from JSON bodies (dicts, lists, strings, ints, bools,
  None) are modelled by the inductive type `Json`; a Python dict is an
  association list whose lookup takes the last binding, matching
  json.loads duplicate-key behaviour.
- External library behaviour (httpx request outcomes, json.loads,
  bytes.decode) is supplied through oracle parameters (`AttemptOutcome`
  sequences, `Codec`), so theorems quantify over every possible
  behaviour of those collaborators.
-/

namespace Mtap

/-- Python value resulting from json.loads, or a plain decoded text body.
Python None is `Json.null`. -/
inductive Json where
  | null : Json
  | bool (b : Bool) : Json
  | num (n : Int) : Json
  | str (s : String) : Json
  | arr (xs : List Json) : Json
  | obj (fields : List (String × Json)) : Json

/-- Python dict lookup on the association-list model: json.loads keeps the
last occurrence of a duplicated key, so lookup takes the last binding. -/
def dictGet (fields : List (String × Json)) (k : String) : Option Json :=
  ((fields.filter (fun p => p.1 == k)).getLast?).map (fun p => p.2)

/-- Python truthiness of a parsed JSON value (used by
`if error_payload.get("message"):` in client.py line 123). -/
def Json.truthy : Json → Bool
  | .null => false
  | .bool b => b
  | .num n => n != 0
  | .str s => s != ""
  | .arr xs => !xs.isEmpty
  | .obj fields => !fields.isEmpty

mutual
/-- Model of Python repr() on a parsed JSON value (string escaping is not
modelled; no claim depends on it). -/
def pyRepr : Json → String
  | .null => "None"
  | .bool true => "True"
  | .bool false => "False"
  | .num n => toString n
  | .str s => "\x27" ++ s ++ "\x27"
  | .arr xs => "[" ++ ", ".intercalate (pyReprList xs) ++ "]"
  | .obj fields => "\x7b" ++ ", ".intercalate (pyReprFields fields) ++ "\x7d"

/-- repr() of the elements of a Python list. -/
def pyReprList : List Json → List String
  | [] => []
  | x :: xs => pyRepr x :: pyReprList xs

/-- repr() of the key-value pairs of a Python dict. -/
def pyReprFields : List (String × Json) → List String
  | [] => []
  | (k, v) :: fs => ("\x27" ++ k ++ "\x27: " ++ pyRepr v) :: pyReprFields fs
end

/-- Model of Python str(): identity on strings, repr() otherwise. -/
def pyStr : Json → String
  | .str s => s
  | j => pyRepr j

/-- The concrete exception classes raised by the SDK (src/core/errors.py).
`mtapApiError` is the base API-error class raised directly for unmapped
statuses and for JSON decode failures; `mtapSdkError` is the SDK base
class raised directly for closed-client use and unexpected wrapping. -/
inductive ErrClass where
  | invalidRequest
  | authentication
  | authorization
  | notFound
  | idempotencyConflict
  | rateLimit
  | serverError
  | mtapApiError
  | mtapSdkError
  | networkError
  | configurationError
deriving DecidableEq, Repr

/-- A raised SDK error: class, message (a Python value: client.py can set a
non-string message from a payload field), and optional HTTP status. -/
structure RaisedError where
  cls : ErrClass
  message : Json
  status : Option Nat

/-- The `error_map` dictionary of MtapClient._handle_api_error
(client.py lines 128-135). -/
def error_map (status : Nat) : Option ErrClass :=
  if status = 400 then some .invalidRequest
  else if status = 401 then some .authentication
  else if status = 403 then some .authorization
  else if status = 404 then some .notFound
  else if status = 409 then some .idempotencyConflict
  else if status = 429 then some .rateLimit
  else none

/-- Status-to-class selection of MtapClient._handle_api_error
(client.py lines 136-141): mapped statuses first, then the 5xx range,
then the generic MtapApiError. -/
def classifyStatus (status : Nat) : ErrClass :=
  match error_map status with
  | some c => c
  | none => if 500 ≤ status ∧ status < 600 then .serverError else .mtapApiError

/-- The generic fallback message of _handle_api_error (client.py line 115). -/
def genericApiMessage (url : String) (status : Nat) : Json :=
  .str ("API Error at " ++ url ++ " (Status " ++ toString status ++ ")")

/-- Message derivation of MtapClient._handle_api_error
(client.py lines 114-126). -/
def deriveMessage (status : Nat) (payload : Json) (url : String) : Json :=
  match payload with
  | .obj fields =>
    let details := (dictGet fields "detail").getD ((dictGet fields "error").getD .null)
    match details with
    | .str s => .str s
    | .obj dfields => (dictGet dfields "message").getD (.str (pyStr (.obj dfields)))
    | _ =>
      let topMessage := (dictGet fields "message").getD .null
      if topMessage.truthy then topMessage else genericApiMessage url status
  | .str s => if s != "" then .str s else genericApiMessage url status
  | _ => genericApiMessage url status

/-- MtapClient._handle_api_error (client.py lines 114-141): derives a
message and raises the classified error carrying the status code. -/
def handle_api_error (status : Nat) (payload : Json) (url : String) : RaisedError :=
  { cls := classifyStatus status
    message := deriveMessage status payload url
    status := some status }

/-- RetryConfig (src/core/config.py lines 12-18), with floats as rationals. -/
structure RetryConfig where
  attempts : Nat := 3
  backoff_factor : Rat := 1 / 2
  max_retry_delay : Rat := 60
  status_forcelist : List Nat := [500, 502, 503, 504]

/-- Backoff delay computation of HttpTransport.request
(src/transport/http.py lines 129-132), for the attempt just completed
(1-indexed).  The uniform draw random.uniform(-1, 1) is the parameter `u`. -/
def retryDelay (cfg : RetryConfig) (currentAttempt : Nat) (u : Rat) : Rat :=
  let delay := cfg.backoff_factor * 2 ^ (currentAttempt - 1)
  let jitter := delay * (1 / 10) * u
  let actualDelay := min (delay + jitter) cfg.max_retry_delay
  max 0 actualDelay

/-- Outcome of one httpx call as seen by HttpTransport.request: a response,
or one of the exception families it catches (http.py lines 109-125); the
string is str(e) of the underlying httpx exception. -/
inductive AttemptOutcome where
  | response (status : Nat) (contentType : Option String) (body : Option (List Nat))
  | timeoutExc (e : String)
  | networkExc (e : String)
  | otherExc (e : String)

/-- A received HTTP response: status, content-type header (none when the
header is absent), and body bytes (none models aread() raising). -/
structure HttpResponse where
  status : Nat
  contentType : Option String
  body : Option (List Nat)

/-- httpx.Response.is_success (2xx): response.raise_for_status() in
http.py line 95 raises HTTPStatusError exactly for non-2xx statuses
(httpx >= 0.27 per setup.py). -/
def isSuccessStatus (s : Nat) : Bool := 200 ≤ s && s < 300

/-- The last_exception variable of the retry loop: either a NetworkError
already wrapping the message, or an httpx.HTTPStatusError for a
forcelist status. -/
inductive LastExc where
  | network (msg : String)
  | httpStatus (status : Nat)

/-- Result of HttpTransport.request: the returned response, or one of the
raises after the loop (http.py lines 138-149), each recording how many
HTTP attempts were issued. -/
inductive TransportResult where
  | returned (attemptsMade : Nat) (resp : HttpResponse)
  | apiError (attemptsMade : Nat) (status : Nat) (msg : String)
  | netError (attemptsMade : Nat) (msg : String)
  | unexpectedState (attemptsMade : Nat) (msg : String)

/-- NetworkError message for a timeout (http.py line 110). -/
def timeoutMsg (url : String) (attempt : Nat) (e : String) : String :=
  "Request timed out to " ++ url ++ " on attempt " ++ toString attempt ++ ": " ++ e

/-- NetworkError message for an httpx.NetworkError (http.py line 112). -/
def networkMsg (url : String) (attempt : Nat) (e : String) : String :=
  "Network error connecting to " ++ url ++ " on attempt " ++ toString attempt ++ ": " ++ e

/-- NetworkError message for any other exception (http.py line 125). -/
def unexpectedMsg (url : String) (attempt : Nat) (e : String) : String :=
  "Unexpected error during HTTP request to " ++ url ++ " on attempt " ++ toString attempt ++ ": " ++ e

/-- Post-loop resolution of HttpTransport.request (http.py lines 138-149):
raise MtapApiError for an exhausted forcelist status, re-raise the last
NetworkError, or raise the defensive final NetworkError. -/
def finishRequest (url : String) (attempts : Nat) (made : Nat) :
    Option LastExc → TransportResult
  | some (.httpStatus s) =>
    .apiError made s ("HTTP error after retries: " ++ toString s ++ " for " ++ url)
  | some (.network m) => .netError made m
  | none =>
    .unexpectedState made
      ("Request failed after " ++ toString attempts ++ " attempts to " ++ url ++ " (unexpected state)")

/-- The while loop of HttpTransport.request (http.py lines 66-136).
`wire k` is the outcome of the k-th httpx call; `made` is the value of
current_attempt so far and `fuel` the remaining loop iterations
(`attempts - made`), so the loop guard current_attempt < attempts is
`fuel > 0`.  A response whose status is in the forcelist with attempts
remaining goes through raise_for_status: non-2xx becomes the caught
HTTPStatusError and the loop sleeps and retries; a 2xx forcelist status
is returned as-is (http.py lines 102-103).  Every other response is
returned immediately (http.py lines 104-107). -/
def runAttempts (cfg : RetryConfig) (url : String) (wire : Nat → AttemptOutcome) :
    Nat → Nat → Option LastExc → TransportResult
  | made, 0, lastExc => finishRequest url cfg.attempts made lastExc
  | made, fuel + 1, _lastExc =>
    let attempt := made + 1
    match wire attempt with
    | .response s ct body =>
      if s ∈ cfg.status_forcelist ∧ attempt < cfg.attempts then
        if isSuccessStatus s then
          .returned attempt ⟨s, ct, body⟩
        else
          runAttempts cfg url wire attempt fuel (some (.httpStatus s))
      else
        .returned attempt ⟨s, ct, body⟩
    | .timeoutExc e => runAttempts cfg url wire attempt fuel (some (.network (timeoutMsg url attempt e)))
    | .networkExc e => runAttempts cfg url wire attempt fuel (some (.network (networkMsg url attempt e)))
    | .otherExc e => runAttempts cfg url wire attempt fuel (some (.network (unexpectedMsg url attempt e)))

/-- HttpTransport.request (http.py lines 34-149), abstracted over the
sequence of httpx call outcomes. -/
def transport_request (cfg : RetryConfig) (url : String) (wire : Nat → AttemptOutcome) :
    TransportResult :=
  runAttempts cfg url wire 0 cfg.attempts none

/-- Number of HTTP attempts a transport result records. -/
def TransportResult.attemptsUsed : TransportResult → Nat
  | .returned n _ => n
  | .apiError n _ _ => n
  | .netError n _ => n
  | .unexpectedState n _ => n

/-- Oracle model of the external decoding collaborators used by
MtapClient._make_request: bytes.decode("utf-8") (none = UnicodeDecodeError),
bytes.decode("utf-8", errors="replace") (total), json.loads
(none = json.JSONDecodeError), and the str() rendering of the exception
interpolated into the decode-failure messages. -/
structure Codec where
  decodeUtf8 : List Nat → Option String
  decodeReplace : List Nat → String
  loads : String → Option Json
  jsonErrText : String
  excText : String

/-- Substring test modelling the Python `in` operator on strings. -/
def strContainsSub (hay pat : String) : Bool :=
  decide (pat.toList <:+: hay.toList)

/-- Model of Python str.lower() (ASCII case folding, which covers every
content-type value). -/
def pyLower (s : String) : String :=
  String.mk (s.toList.map Char.toLower)

/-- The check `"application/json" in raw_response.headers.get("content-type", "").lower()`
(client.py lines 196 and 214). -/
def isJsonContentType (contentType : Option String) : Bool :=
  strContainsSub (pyLower (contentType.getD "")) "application/json"

/-- Best-effort error-body read of _make_request (client.py lines 193-201):
aread, then JSON parse or replacing text decode; every exception leaves
the payload as Python None. -/
def errorBodyPayload (codec : Codec) (resp : HttpResponse) : Json :=
  match resp.body with
  | none => .null
  | some bytes =>
    if isJsonContentType resp.contentType then
      match codec.decodeUtf8 bytes with
      | none => .null
      | some text =>
        match codec.loads text with
        | none => .null
        | some j => j
    else
      .str (codec.decodeReplace bytes)

/-- What _make_request hands back for one obtained response:
a decoded JSON payload, the raw-bytes wrapper dict
`{"raw_content": ..., "content_type": ...}`, the still-open streaming
response object, or a raised error. -/
inductive RequestResult where
  | payload (j : Json)
  | rawPayload (body : List Nat) (contentType : Json)
  | streamHandle (resp : HttpResponse)
  | error (e : RaisedError)

/-- Observable state of the response body handle when _make_request
finishes with it: whether aread() was invoked and whether aclose() was. -/
structure BodyState where
  readAttempted : Bool
  closed : Bool

/-- The wrapper dict value for the content_type key: headers.get returns
Python None when the header is absent (client.py line 217). -/
def contentTypeValue : Option String → Json
  | none => .null
  | some s => .str s

/-- Response handling of MtapClient._make_request after the transport
returned (client.py lines 192-223): error classification with guaranteed
close for unexpected statuses, the open handle for streaming, and body
decode with a finally-close otherwise. -/
def process_response (codec : Codec) (expected : List Nat) (streamResponse : Bool)
    (resp : HttpResponse) (url : String) : RequestResult × BodyState :=
  if resp.status ∉ expected then
    -- lines 192-205: read the error body best-effort, close in the finally
    -- (its guard `not stream_response or status not in expected_status` is
    -- kept as written), then _handle_api_error raises.
    (.error (handle_api_error resp.status (errorBodyPayload codec resp) url),
     ⟨true, !streamResponse || !(expected.contains resp.status)⟩)
  else if streamResponse then
    -- lines 207-208: return the open handle unread.
    (.streamHandle resp, ⟨false, false⟩)
  else
    -- lines 209-223: aread, decode, close in the finally block.
    match resp.body with
    | none =>
      -- aread() raised: caught by `except Exception` at line 220.
      (.error ⟨.mtapSdkError,
        .str ("Error processing successful response from " ++ url ++ ": " ++ codec.excText),
        none⟩, ⟨true, true⟩)
    | some bytes =>
      if bytes.isEmpty then
        (.payload (.obj []), ⟨true, true⟩)
      else if isJsonContentType resp.contentType then
        match codec.decodeUtf8 bytes with
        | none =>
          -- UnicodeDecodeError: caught by `except Exception` at line 220.
          (.error ⟨.mtapSdkError,
            .str ("Error processing successful response from " ++ url ++ ": " ++ codec.excText),
            none⟩, ⟨true, true⟩)
        | some text =>
          match codec.loads text with
          | some j => (.payload j, ⟨true, true⟩)
          | none =>
            -- json.JSONDecodeError: caught at line 218, re-raised as
            -- MtapApiError carrying the original status code.
            (.error ⟨.mtapApiError,
              .str ("Failed to decode JSON response from " ++ url ++ ": " ++ codec.jsonErrText),
              some resp.status⟩, ⟨true, true⟩)
      else
        (.rawPayload bytes (contentTypeValue resp.contentType), ⟨true, true⟩)

/-- SessionContext (src/session/base.py lines 6-12); only token_info is
observed by the core, with Json.null for Python None. -/
structure SessionCtx where
  token_info : Json

/-- Mutable state of MtapClient observed by the claims:
the _is_closed flag and the cached _session_context. -/
structure ClientState where
  is_closed : Bool
  session_context : Option SessionCtx

/-- The raise `MtapSdkError("Client is closed.")` shared by authenticate,
get_session_context and _make_request. -/
def closedError : RaisedError :=
  ⟨.mtapSdkError, .str "Client is closed.", none⟩

/-- Result of a client operation: a value or a raised error. -/
inductive OpOutcome (α : Type) where
  | ok (a : α)
  | err (e : RaisedError)

/-- MtapClient.is_authenticated (client.py lines 57-69): false when closed,
false when no cached context or its token_info is falsy.  The check
`not self._session_context` is never true when a context is cached, since
a dataclass instance is always truthy. -/
def is_authenticated (s : ClientState) : Bool :=
  if s.is_closed then false
  else
    match s.session_context with
    | none => false
    | some ctx => ctx.token_info.truthy

/-- Side effects MtapClient.close performs on its collaborators. -/
structure CloseEffects where
  transportClosed : Bool
  logoutCalled : Bool

/-- MtapClient.close (client.py lines 101-112): idempotent early return when
already closed; otherwise close the transport, best-effort logout, clear
the cached session context and set the closed flag. -/
def close (s : ClientState) : ClientState × CloseEffects :=
  if s.is_closed then (s, ⟨false, false⟩)
  else (⟨true, none⟩, ⟨true, true⟩)

/-- MtapClient.authenticate (client.py lines 71-79), abstracted over the
auth provider result: none models the provider returning a value that is
not a SessionContext, which clears the cached context and raises. -/
def authenticate (s : ClientState) (providerResult : Option SessionCtx) :
    ClientState × OpOutcome SessionCtx :=
  if s.is_closed then (s, .err closedError)
  else
    match providerResult with
    | some ctx => ({ s with session_context := some ctx }, .ok ctx)
    | none =>
      ({ s with session_context := none },
       .err ⟨.authentication,
         .str "Authentication provider did not return a valid SessionContext.", none⟩)

/-- MtapClient.get_session_context (client.py lines 81-99). -/
def get_session_context (s : ClientState) (autoAuthenticate : Bool)
    (providerResult : Option SessionCtx) : ClientState × OpOutcome (Option SessionCtx) :=
  if s.is_closed then (s, .err closedError)
  else if is_authenticated s then (s, .ok s.session_context)
  else if autoAuthenticate then
    match authenticate s providerResult with
    | (s2, .ok _) => (s2, .ok s2.session_context)
    | (s2, .err e) => (s2, .err e)
  else (s, .ok none)

/-- Full result of one _make_request call: the possibly updated client
state, the outcome, the body state when a response was obtained, and the
number of HTTP attempts issued. -/
structure MakeRequestResult where
  state : ClientState
  outcome : OpOutcome RequestResult
  bodyState : Option BodyState
  httpAttempts : Nat

/-- str() of the TypeError raised by the transport invocation at client.py
line 183: the call passes the keyword argument `json=json_data`, but
HttpTransport.request (http.py line 40) names that parameter `json_data`
and accepts no variadic keywords, so Python rejects the call before any
HTTP attempt is issued. -/
def kwargTypeErrorText : String :=
  "HttpTransport.request() got an unexpected keyword argument \x27json\x27"

/-- MtapClient._make_request (client.py lines 143-223) as written,
abstracted over the auth provider result.  Header merging and URL building
(lines 167-177) only shape the wire request and are outside the claims;
`url` stands for the built full_url.  The transport-not-initialized guard
(line 158) cannot fire because the constructor always sets a transport.
The transport invocation itself (line 183) passes `json=` to a transport
whose parameter is `json_data`, so it raises TypeError, which is not a
NetworkError and is therefore wrapped by the handler at lines 189-190 as
MtapSdkError, with zero HTTP attempts issued; the response-handling block
at lines 192-223 (embedded as `process_response`) is never reached. -/
def make_request (s : ClientState) (providerResult : Option SessionCtx)
    (_cfg : RetryConfig) (_codec : Codec) (_expected : List Nat)
    (_streamResponse : Bool) (_url : String) (_wire : Nat → AttemptOutcome) :
    MakeRequestResult :=
  if s.is_closed then ⟨s, .err closedError, none, 0⟩
  else
    match get_session_context s true providerResult with
    | (s2, .err e) => ⟨s2, .err e, none, 0⟩
    | (s2, .ok none) =>
      ⟨s2, .err ⟨.authentication,
        .str "Failed to establish authenticated session for request.", none⟩, none, 0⟩
    | (s2, .ok (some _)) =>
      ⟨s2, .err ⟨.mtapSdkError,
        .str ("Unexpected error during request transport: " ++ kwargTypeErrorText),
        none⟩, none, 0⟩

/-- MtapClient._make_request composed with the transport as the spec and
the surrounding code evidently intend it: identical to `make_request`
except that the keyword slip at client.py line 183 is corrected to
`json_data=json_data`, so the transport runs.  A transport-raised
NetworkError is re-raised (line 188); any other transport exception,
including the MtapApiError from http.py line 145, is wrapped as
MtapSdkError (line 190). -/
def make_request_fixed (s : ClientState) (providerResult : Option SessionCtx)
    (cfg : RetryConfig) (codec : Codec) (expected : List Nat)
    (streamResponse : Bool) (url : String) (wire : Nat → AttemptOutcome) :
    MakeRequestResult :=
  if s.is_closed then ⟨s, .err closedError, none, 0⟩
  else
    match get_session_context s true providerResult with
    | (s2, .err e) => ⟨s2, .err e, none, 0⟩
    | (s2, .ok none) =>
      ⟨s2, .err ⟨.authentication,
        .str "Failed to establish authenticated session for request.", none⟩, none, 0⟩
    | (s2, .ok (some _)) =>
      match transport_request cfg url wire with
      | .returned n resp =>
        let pr := process_response codec expected streamResponse resp url
        match pr.1 with
        | .error e => ⟨s2, .err e, some pr.2, n⟩
        | r => ⟨s2, .ok r, some pr.2, n⟩
      | .netError n msg => ⟨s2, .err ⟨.networkError, .str msg, none⟩, none, n⟩
      | .unexpectedState n msg => ⟨s2, .err ⟨.networkError, .str msg, none⟩, none, n⟩
      | .apiError n st msg =>
        ⟨s2, .err ⟨.mtapSdkError,
          .str ("Unexpected error during request transport: (Status " ++ toString st ++ ") " ++ msg),
          none⟩, none, n⟩

/-- Spec rule (section 4.3, claim C8) for the selected detail-or-error
field: a structured object yields its message sub-field (the spec leaves a
missing sub-field open; the stringification of the field is used here),
anything else is stringified. -/
def specFieldMessage : Json → Json
  | .obj dfields => (dictGet dfields "message").getD (.str (pyStr (.obj dfields)))
  | v => .str (pyStr v)

/-- Message-derivation rule written from the words of the spec (section 4.3,
claim C8), to be compared with `deriveMessage`, which is the embedding of
the source: prefer a detail field, else an error field; apply
`specFieldMessage` to it; plain non-empty text verbatim; otherwise the
generic form. -/
def specDeriveMessage (status : Nat) (payload : Json) (url : String) : Json :=
  match payload with
  | .obj fields =>
    match dictGet fields "detail" with
    | some d => specFieldMessage d
    | none =>
      match dictGet fields "error" with
      | some d => specFieldMessage d
      | none => genericApiMessage url status
  | .str s => if s != "" then .str s else genericApiMessage url status
  | _ => genericApiMessage url status

/-- Concrete codec used to instantiate witness and counterexample theorems:
a decoder whose json.loads recognises only the empty object literal. -/
def sampleCodec : Codec where
  decodeUtf8 := fun _ => some "\x7b\x7d"
  decodeReplace := fun _ => "body-text"
  loads := fun t => if t == "\x7b\x7d" then some (.obj []) else none
  jsonErrText := "Expecting value: line 1 column 1 (char 0)"
  excText := "boom"

/-- Concrete codec whose json.loads always fails, for decode-failure
witnesses. -/
def failingCodec : Codec where
  decodeUtf8 := fun _ => some "not json"
  decodeReplace := fun _ => "not json"
  loads := fun _ => none
  jsonErrText := "Expecting value: line 1 column 1 (char 0)"
  excText := "boom"

/-- Concrete codec whose bytes.decode("utf-8") always raises
UnicodeDecodeError, for invalid-UTF-8 bodies. -/
def invalidUtf8Codec : Codec where
  decodeUtf8 := fun _ => none
  decodeReplace := fun _ => "�"
  loads := fun _ => none
  jsonErrText := "Expecting value: line 1 column 1 (char 0)"
  excText :=
    "\x27utf-8\x27 codec can\x27t decode byte 0xff in position 0: invalid start byte"

/-- Concrete authenticated open client state for witnesses. -/
def sampleOpenState : ClientState :=
  ⟨false, some ⟨.obj [("access_token", .str "tok")]⟩⟩

/-- Concrete closed client state for witnesses. -/
def sampleClosedState : ClientState :=
  ⟨true, none⟩

/-- Claim C3: for every status outside the expected set and every error
payload, the classifier maps 400 to InvalidRequest, 401 to Authentication,
403 to Authorization, 404 to NotFound, 409 to IdempotencyConflict, 429 to
RateLimit, any other status in [500, 600) to the generic server-error
kind, and every remaining status to the generic API-error kind. -/
theorem claim_C3_classifier_table :
    ∀ (payload : Json) (url : String),
      (handle_api_error 400 payload url).cls = .invalidRequest ∧
      (handle_api_error 401 payload url).cls = .authentication ∧
      (handle_api_error 403 payload url).cls = .authorization ∧
      (handle_api_error 404 payload url).cls = .notFound ∧
      (handle_api_error 409 payload url).cls = .idempotencyConflict ∧
      (handle_api_error 429 payload url).cls = .rateLimit ∧
      (∀ s, 500 ≤ s → s < 600 → (handle_api_error s payload url).cls = .serverError) ∧
      (∀ s, s ∉ ([400, 401, 403, 404, 409, 429] : List Nat) → ¬(500 ≤ s ∧ s < 600) →
        (handle_api_error s payload url).cls = .mtapApiError) := by
  intro payload url
  refine ⟨rfl, rfl, rfl, rfl, rfl, rfl, ?_, ?_⟩
  · intro s h1 h2
    have e : error_map s = none := by
      simp only [error_map]
      rw [if_neg (by omega), if_neg (by omega), if_neg (by omega),
        if_neg (by omega), if_neg (by omega), if_neg (by omega)]
    simp only [handle_api_error, classifyStatus, e]
    rw [if_pos ⟨h1, h2⟩]
  · intro s hmem hrange
    simp only [List.mem_cons, List.not_mem_nil, or_false, not_or] at hmem
    obtain ⟨n400, n401, n403, n404, n409, n429⟩ := hmem
    have e : error_map s = none := by
      simp only [error_map]
      rw [if_neg n400, if_neg n401, if_neg n403, if_neg n404, if_neg n409, if_neg n429]
    simp only [handle_api_error, classifyStatus, e]
    rw [if_neg hrange]

/-- Witness for claim C3 at the statuses 503 and 418 named by the spec. -/
theorem claim_C3_classifier_table_witness :
    (handle_api_error 503 .null "u").cls = .serverError ∧
    (handle_api_error 418 .null "u").cls = .mtapApiError :=
  ⟨(claim_C3_classifier_table .null "u").2.2.2.2.2.2.1 503 (by omega) (by omega),
   (claim_C3_classifier_table .null "u").2.2.2.2.2.2.2 418 (by decide) (by omega)⟩

/-- Claim C4: whenever an HTTP attempt yields a response whose status is
not in the configured retryable forcelist, the transport returns that
response to the caller at that very attempt with no further attempt,
including on the first attempt and regardless of whether the status is a
success or an error status. -/
theorem claim_C4_non_forcelist_returned_immediately :
    ∀ (cfg : RetryConfig) (url : String) (wire : Nat → AttemptOutcome)
      (made fuel : Nat) (lastExc : Option LastExc) (st : Nat)
      (ct : Option String) (body : Option (List Nat)),
      wire (made + 1) = .response st ct body →
      st ∉ cfg.status_forcelist →
      runAttempts cfg url wire made (fuel + 1) lastExc = .returned (made + 1) ⟨st, ct, body⟩ ∧
      (cfg.attempts = fuel + 1 → made = 0 →
        transport_request cfg url wire = .returned 1 ⟨st, ct, body⟩) := by
  intro cfg url wire made fuel lastExc st ct body hwire hnot
  have h1 : runAttempts cfg url wire made (fuel + 1) lastExc =
      .returned (made + 1) ⟨st, ct, body⟩ := by
    simp only [runAttempts, hwire]
    rw [if_neg (fun hc => hnot hc.1)]
  refine ⟨h1, ?_⟩
  intro hA hM
  have h2 : runAttempts cfg url wire 0 (fuel + 1) none =
      .returned (0 + 1) ⟨st, ct, body⟩ := by
    simp only [runAttempts, hM ▸ hwire]
    rw [if_neg (fun hc => hnot hc.1)]
  simpa [transport_request, hA] using h2

/-- Witness for claim C4: a 404 outside the forcelist is returned on the
first of three attempts. -/
theorem claim_C4_non_forcelist_returned_immediately_witness :
    runAttempts { attempts := 3 } "u" (fun _ => .response 404 none (some [])) 0 3 none =
      .returned 1 ⟨404, none, some []⟩ ∧
    transport_request { attempts := 3 } "u" (fun _ => .response 404 none (some [])) =
      .returned 1 ⟨404, none, some []⟩ := by
  have h := claim_C4_non_forcelist_returned_immediately { attempts := 3 } "u"
    (fun _ => .response 404 none (some [])) 0 2 none 404 none (some []) rfl (by decide)
  exact ⟨h.1, h.2 rfl rfl⟩

/-- Claim C9: for a request with streaming requested whose response status
is in the expected set, the orchestrator returns the open, unread response
handle rather than a decoded payload. -/
theorem claim_C9_streaming_open_handle :
    ∀ (codec : Codec) (expected : List Nat) (resp : HttpResponse) (url : String),
      resp.status ∈ expected →
      process_response codec expected true resp url = (.streamHandle resp, ⟨false, false⟩) := by
  intro codec expected resp url h
  simp [process_response, h]

/-- Witness for claim C9: a byte-range fetch expecting statuses 200 and 206
that receives 206 returns the open handle. -/
theorem claim_C9_streaming_open_handle_witness :
    process_response sampleCodec [200, 206] true ⟨206, some "application/octet-stream", some [104]⟩ "u" =
      (.streamHandle ⟨206, some "application/octet-stream", some [104]⟩, ⟨false, false⟩) :=
  claim_C9_streaming_open_handle sampleCodec [200, 206]
    ⟨206, some "application/octet-stream", some [104]⟩ "u" (by decide)

/-- Claim C10: once close() has been called the closed state is permanent
and observable everywhere: close() sets the flag and clears the cached
session context; on a closed client a second close() returns without
re-closing resources, is_authenticated() is false, and authenticate,
get_session_context and _make_request raise the "Client is closed." SDK
error, leaving the state unchanged and issuing no HTTP attempt. -/
theorem claim_C10_closed_is_permanent :
    ∀ (s₀ s : ClientState), s₀.is_closed = false → s.is_closed = true →
      ∀ (providerResult : Option SessionCtx) (autoAuthenticate : Bool)
        (cfg : RetryConfig) (codec : Codec) (expected : List Nat)
        (stream : Bool) (url : String) (wire : Nat → AttemptOutcome),
        (close s₀).1.is_closed = true ∧
        (close s₀).1.session_context = none ∧
        close s = (s, ⟨false, false⟩) ∧
        is_authenticated s = false ∧
        authenticate s providerResult = (s, .err closedError) ∧
        get_session_context s autoAuthenticate providerResult = (s, .err closedError) ∧
        make_request s providerResult cfg codec expected stream url wire =
          ⟨s, .err closedError, none, 0⟩ := by
  intro s₀ s h₀ h providerResult autoAuthenticate cfg codec expected stream url wire
  refine ⟨?_, ?_, ?_, ?_, ?_, ?_, ?_⟩
  · simp [close, h₀]
  · simp [close, h₀]
  · simp [close, h]
  · simp [is_authenticated, h]
  · simp [authenticate, h]
  · simp [get_session_context, h]
  · simp [make_request, h]

/-- Witness for claim C10 on a concrete closed client. -/
theorem claim_C10_closed_is_permanent_witness :
    (close sampleOpenState).1.is_closed = true ∧
    (close sampleOpenState).1.session_context = none ∧
    close sampleClosedState = (sampleClosedState, ⟨false, false⟩) ∧
    is_authenticated sampleClosedState = false ∧
    authenticate sampleClosedState none = (sampleClosedState, .err closedError) ∧
    get_session_context sampleClosedState true none = (sampleClosedState, .err closedError) ∧
    make_request sampleClosedState none {} sampleCodec [200] false "u"
        (fun _ => .response 200 none (some [])) =
      ⟨sampleClosedState, .err closedError, none, 0⟩ :=
  claim_C10_closed_is_permanent sampleOpenState sampleClosedState rfl rfl none true {}
    sampleCodec [200] false "u" (fun _ => .response 200 none (some []))

/-- Every non-streaming exit of the response-handling block closes the
body handle. -/
theorem process_response_nonstream_closed (codec : Codec) (expected : List Nat)
    (resp : HttpResponse) (url : String) :
    (process_response codec expected false resp url).2.closed = true := by
  by_cases h : resp.status ∉ expected
  · simp [process_response, h]
  · cases hb : resp.body with
    | none => simp [process_response, h, hb]
    | some bytes =>
      cases hbe : bytes.isEmpty with
      | true => simp [process_response, h, hb, hbe]
      | false =>
        cases hj : isJsonContentType resp.contentType with
        | false => simp [process_response, h, hb, hbe, hj]
        | true =>
          cases hd : codec.decodeUtf8 bytes with
          | none => simp [process_response, h, hb, hbe, hj, hd]
          | some t =>
            cases hl : codec.loads t with
            | none => simp [process_response, h, hb, hbe, hj, hd, hl]
            | some j => simp [process_response, h, hb, hbe, hj, hd, hl]

/-- Claim C5: a non-streaming request that obtained a response closes the
body handle on every exit path (decode success, decode failure, or
unexpected status); with streaming requested the handle is left open
exactly when the status is in the expected set, and the unexpected-status
path closes the handle before the classified error surfaces. -/
theorem claim_C5_body_handle_closure :
    ∀ (codec : Codec) (expected : List Nat) (stream : Bool)
      (resp : HttpResponse) (url : String),
      (process_response codec expected false resp url).2.closed = true ∧
      (resp.status ∈ expected →
        (process_response codec expected true resp url).2.closed = false) ∧
      ((process_response codec expected true resp url).2.closed = false →
        resp.status ∈ expected) ∧
      (resp.status ∉ expected →
        (process_response codec expected stream resp url).2.closed = true ∧
        (process_response codec expected stream resp url).1 =
          .error (handle_api_error resp.status (errorBodyPayload codec resp) url)) := by
  intro codec expected stream resp url
  refine ⟨process_response_nonstream_closed codec expected resp url, ?_, ?_, ?_⟩
  · intro h
    simp [process_response, h]
  · intro hclosed
    by_cases h : resp.status ∈ expected
    · exact h
    · exfalso
      have ht : (process_response codec expected true resp url).2.closed = true := by
        simp [process_response, h]
      rw [ht] at hclosed
      cases hclosed
  · intro h
    constructor
    · cases stream with
      | false => exact process_response_nonstream_closed codec expected resp url
      | true => simp [process_response, h]
    · simp [process_response, h]

/-- Witness for claim C5: a 500 response with streaming requested is closed
and classified; a 200 streaming response stays open. -/
theorem claim_C5_body_handle_closure_witness :
    (process_response sampleCodec [200] false ⟨500, none, some [104]⟩ "u").2.closed = true ∧
    ((206 : Nat) ∈ ([200, 206] : List Nat) →
      (process_response sampleCodec [200, 206] true ⟨206, none, some [104]⟩ "u").2.closed = false) ∧
    ((process_response sampleCodec [200] true ⟨500, none, some [104]⟩ "u").2.closed = true ∧
      (process_response sampleCodec [200] true ⟨500, none, some [104]⟩ "u").1 =
        .error (handle_api_error 500 (errorBodyPayload sampleCodec ⟨500, none, some [104]⟩) "u")) :=
  ⟨(claim_C5_body_handle_closure sampleCodec [200] false ⟨500, none, some [104]⟩ "u").1,
   (claim_C5_body_handle_closure sampleCodec [200, 206] true ⟨206, none, some [104]⟩ "u").2.1,
   (claim_C5_body_handle_closure sampleCodec [200] true ⟨500, none, some [104]⟩ "u").2.2.2
     (by decide)⟩

/-- Counterexample to claim C6 as stated: a 200 application/json response
whose body (the single byte 0xFF) is not valid UTF-8 — and hence not
valid JSON — raises UnicodeDecodeError rather than json.JSONDecodeError,
so it falls into the `except Exception` handler at client.py lines
220-221 and surfaces as a status-less MtapSdkError: the raised error does
not carry the original HTTP status code 200. -/
theorem claim_C6_counterexample :
    (process_response invalidUtf8Codec [200] false
        ⟨200, some "application/json", some [255]⟩ "u").1 =
      .error ⟨.mtapSdkError,
        .str ("Error processing successful response from u: " ++ invalidUtf8Codec.excText),
        none⟩ ∧
    (RaisedError.status ⟨.mtapSdkError,
        .str ("Error processing successful response from u: " ++ invalidUtf8Codec.excText),
        none⟩) ≠ some 200 := by
  refine ⟨rfl, ?_⟩
  simp

/-- Claim C6 as amended: for a non-streaming response whose status is in
the expected-success set but whose non-empty JSON-content-type body fails
to decode, the failure mode depends on where decoding breaks: a body that
decodes as UTF-8 text but fails to parse as JSON surfaces as the generic
unclassified MtapApiError (the UnexpectedError of the taxonomy: none of
the mapped kinds, cause preserved) carrying the original HTTP status
code, while a body that is not valid UTF-8 surfaces as a status-less
MtapSdkError; in both cases the body handle is closed. -/
theorem claim_C6_decode_failure :
    ∀ (codec : Codec) (expected : List Nat) (resp : HttpResponse) (url : String)
      (bytes : List Nat),
      resp.status ∈ expected →
      resp.body = some bytes →
      bytes.isEmpty = false →
      isJsonContentType resp.contentType = true →
      (∀ text, codec.decodeUtf8 bytes = some text → codec.loads text = none →
        (process_response codec expected false resp url).1 =
          .error ⟨.mtapApiError,
            .str ("Failed to decode JSON response from " ++ url ++ ": " ++ codec.jsonErrText),
            some resp.status⟩) ∧
      (codec.decodeUtf8 bytes = none →
        (process_response codec expected false resp url).1 =
          .error ⟨.mtapSdkError,
            .str ("Error processing successful response from " ++ url ++ ": " ++ codec.excText),
            none⟩) ∧
      (process_response codec expected false resp url).2.closed = true := by
  intro codec expected resp url bytes hmem hbody hne hjson
  refine ⟨?_, ?_, process_response_nonstream_closed codec expected resp url⟩
  · intro text hdec hloads
    simp [process_response, hmem, hbody, hne, hjson, hdec, hloads]
  · intro hdec
    simp [process_response, hmem, hbody, hne, hjson, hdec]

/-- Witness for claim C6 as amended: a 200 JSON response whose body does
not parse carries status 200; one whose body is not UTF-8 carries none. -/
theorem claim_C6_decode_failure_witness :
    (process_response failingCodec [200] false ⟨200, some "application/json", some [110]⟩ "u").1 =
      .error ⟨.mtapApiError,
        .str ("Failed to decode JSON response from u: " ++ failingCodec.jsonErrText),
        some 200⟩ ∧
    (process_response failingCodec [200] false ⟨200, some "application/json", some [110]⟩ "u").2.closed = true ∧
    (process_response invalidUtf8Codec [200] false ⟨200, some "application/json", some [255]⟩ "u").1 =
      .error ⟨.mtapSdkError,
        .str ("Error processing successful response from u: " ++ invalidUtf8Codec.excText),
        none⟩ :=
  ⟨(claim_C6_decode_failure failingCodec [200]
      ⟨200, some "application/json", some [110]⟩ "u" [110]
      (by decide) rfl (by decide) (by decide)).1 "not json" rfl rfl,
   (claim_C6_decode_failure failingCodec [200]
      ⟨200, some "application/json", some [110]⟩ "u" [110]
      (by decide) rfl (by decide) (by decide)).2.2,
   (claim_C6_decode_failure invalidUtf8Codec [200]
      ⟨200, some "application/json", some [255]⟩ "u" [255]
      (by decide) rfl (by decide) (by decide)).2.1 rfl⟩

/-- Counterexample to claim C7 as stated: a completed 200 response with an
empty body and content-type text/plain produces the empty dict, not the
raw-bytes wrapper the claim requires for non-JSON content types. -/
theorem claim_C7_counterexample :
    (process_response sampleCodec [200] false ⟨200, some "text/plain", some []⟩ "u").1 =
      .payload (.obj []) ∧
    RequestResult.payload (.obj []) ≠
      .rawPayload [] (contentTypeValue (some "text/plain")) := by
  constructor
  · rfl
  · simp

/-- Claim C7 as amended: for a completed non-streaming response with an
expected status, an empty body yields the empty object; otherwise a
content-type containing application/json yields the parsed JSON value,
and any other content-type yields the wrapper holding the raw body bytes
and the response content-type. -/
theorem claim_C7_success_decoding :
    ∀ (codec : Codec) (expected : List Nat) (resp : HttpResponse) (url : String)
      (bytes : List Nat),
      resp.status ∈ expected →
      resp.body = some bytes →
      ((bytes.isEmpty = true →
          (process_response codec expected false resp url).1 = .payload (.obj [])) ∧
       (bytes.isEmpty = false → isJsonContentType resp.contentType = true →
          ∀ text j, codec.decodeUtf8 bytes = some text → codec.loads text = some j →
            (process_response codec expected false resp url).1 = .payload j) ∧
       (bytes.isEmpty = false → isJsonContentType resp.contentType = false →
          (process_response codec expected false resp url).1 =
            .rawPayload bytes (contentTypeValue resp.contentType))) := by
  intro codec expected resp url bytes hmem hbody
  refine ⟨?_, ?_, ?_⟩
  · intro he
    simp [process_response, hmem, hbody, he]
  · intro he hj text j hdec hloads
    simp [process_response, hmem, hbody, he, hj, hdec, hloads]
  · intro he hj
    simp [process_response, hmem, hbody, he, hj]

/-- Witness for claim C7 as amended, on a parsed JSON body and a raw body. -/
theorem claim_C7_success_decoding_witness :
    (process_response sampleCodec [200] false ⟨200, some "application/json", some [123]⟩ "u").1 =
      .payload (.obj []) ∧
    (process_response sampleCodec [200] false ⟨200, some "text/plain", some [104]⟩ "u").1 =
      .rawPayload [104] (contentTypeValue (some "text/plain")) :=
  ⟨(claim_C7_success_decoding sampleCodec [200] ⟨200, some "application/json", some [123]⟩ "u" [123]
      (by decide) rfl).2.1 rfl (by decide) "\x7b\x7d" (.obj []) rfl rfl,
   (claim_C7_success_decoding sampleCodec [200] ⟨200, some "text/plain", some [104]⟩ "u" [104]
      (by decide) rfl).2.2 rfl (by decide)⟩

/-- Counterexample to claim C2 as stated: at the admissible configuration
backoff factor 1 (> 0), maximum delay 0 (≥ 0), attempt k = 1 and jitter
draw u = 0 (within ±1), the computed delay is 0, strictly below the lower
end 9/10 · base · 2^(k-1) of the interval the claim requires it to lie in. -/
theorem claim_C2_counterexample :
    retryDelay { backoff_factor := 1, max_retry_delay := 0 } 1 0 <
      (9 / 10) * ((1 : Rat) * 2 ^ (1 - 1)) := by
  norm_num [retryDelay]

/-- Claim C2 as amended: for attempt k ≥ 1, backoff factor > 0, maximum
delay ≥ 0 and jitter draw u in [-1, 1], the computed delay lies in
[min(0.9 · base · 2^(k-1), maxDelay), min(1.1 · base · 2^(k-1), maxDelay)]
and is never negative (the claimed lower bound 0.9 · base · 2^(k-1) must
itself be clamped by maxDelay). -/
theorem claim_C2_delay_bounds :
    ∀ (cfg : RetryConfig) (k : Nat) (u : Rat),
      0 < cfg.backoff_factor → 0 ≤ cfg.max_retry_delay → 1 ≤ k →
      -1 ≤ u → u ≤ 1 →
      min ((9 / 10) * (cfg.backoff_factor * 2 ^ (k - 1))) cfg.max_retry_delay ≤
          retryDelay cfg k u ∧
      retryDelay cfg k u ≤
          min ((11 / 10) * (cfg.backoff_factor * 2 ^ (k - 1))) cfg.max_retry_delay ∧
      0 ≤ retryDelay cfg k u := by
  intro cfg k u hb hm _hk hu1 hu2
  simp only [retryDelay]
  set d : Rat := cfg.backoff_factor * 2 ^ (k - 1) with hd
  have hd0 : 0 < d := by
    rw [hd]
    exact mul_pos hb (by positivity)
  have hj_lo : d * (1 / 10) * (-1) ≤ d * (1 / 10) * u :=
    mul_le_mul_of_nonneg_left hu1 (by nlinarith)
  have hj_hi : d * (1 / 10) * u ≤ d * (1 / 10) * 1 :=
    mul_le_mul_of_nonneg_left hu2 (by nlinarith)
  refine ⟨?_, ?_, le_max_left 0 _⟩
  · refine le_trans ?_ (le_max_right 0 _)
    exact min_le_min (by nlinarith) le_rfl
  · apply max_le
    · exact le_min (by nlinarith) hm
    · exact min_le_min (by nlinarith) le_rfl

/-- Witness for claim C2 as amended, at the default retry configuration,
attempt 2 and full positive jitter. -/
theorem claim_C2_delay_bounds_witness :
    min ((9 / 10) * ((1 / 2 : Rat) * 2 ^ (2 - 1))) 60 ≤
        retryDelay ⟨3, 1 / 2, 60, [500, 502, 503, 504]⟩ 2 1 ∧
    retryDelay ⟨3, 1 / 2, 60, [500, 502, 503, 504]⟩ 2 1 ≤
        min ((11 / 10) * ((1 / 2 : Rat) * 2 ^ (2 - 1))) 60 ∧
    0 ≤ retryDelay ⟨3, 1 / 2, 60, [500, 502, 503, 504]⟩ 2 1 :=
  claim_C2_delay_bounds ⟨3, 1 / 2, 60, [500, 502, 503, 504]⟩ 2 1
    (by norm_num) (by norm_num) (by norm_num) (by norm_num) (by norm_num)

/-- Counterexample to claim C8 as stated: for the payload
`{"message": "hi"}` the claimed derivation (no detail field, no error
field, payload is not plain text) falls back to the generic message, but
the code uses the top-level message field and reports "hi". -/
theorem claim_C8_counterexample :
    deriveMessage 500 (.obj [("message", .str "hi")]) "u" = .str "hi" ∧
    specDeriveMessage 500 (.obj [("message", .str "hi")]) "u" = genericApiMessage "u" 500 ∧
    Json.str "hi" ≠ genericApiMessage "u" 500 := by
  refine ⟨rfl, rfl, ?_⟩
  simp only [genericApiMessage, ne_eq, Json.str.injEq]
  decide

/-- Claim C8 as amended: for a structured payload the detail field is
preferred, else the error field; a string field is used directly and a
structured field contributes its message sub-field (its stringification
when the sub-field is absent); when the selected field is absent or
neither a string nor a structured object, a truthy top-level message
field is used verbatim, else the generic fallback; non-empty plain text
is used verbatim; any other payload gives the generic fallback; and
payload {"detail": {"message": "bad scope"}} with status 403 yields kind
Authorization with message "bad scope". -/
theorem claim_C8_message_derivation :
    ∀ (status : Nat) (url : String),
      (∀ fields s,
        (dictGet fields "detail").getD ((dictGet fields "error").getD .null) = .str s →
        deriveMessage status (.obj fields) url = .str s) ∧
      (∀ fields dfields v,
        (dictGet fields "detail").getD ((dictGet fields "error").getD .null) = .obj dfields →
        dictGet dfields "message" = some v →
        deriveMessage status (.obj fields) url = v) ∧
      (∀ fields dfields,
        (dictGet fields "detail").getD ((dictGet fields "error").getD .null) = .obj dfields →
        dictGet dfields "message" = none →
        deriveMessage status (.obj fields) url = .str (pyStr (.obj dfields))) ∧
      (∀ fields d m,
        (dictGet fields "detail").getD ((dictGet fields "error").getD .null) = d →
        (∀ s, d ≠ .str s) → (∀ dfields, d ≠ .obj dfields) →
        (dictGet fields "message").getD .null = m →
        (m.truthy = true → deriveMessage status (.obj fields) url = m) ∧
        (m.truthy = false → deriveMessage status (.obj fields) url = genericApiMessage url status)) ∧
      (∀ s, s ≠ "" → deriveMessage status (.str s) url = .str s) ∧
      (deriveMessage status (.str "") url = genericApiMessage url status) ∧
      (∀ payload, (∀ fields, payload ≠ .obj fields) → (∀ s, payload ≠ .str s) →
        deriveMessage status payload url = genericApiMessage url status) ∧
      (∀ u2, handle_api_error 403 (.obj [("detail", .obj [("message", .str "bad scope")])]) u2 =
        ⟨.authorization, .str "bad scope", some 403⟩) := by
  intro status url
  refine ⟨?_, ?_, ?_, ?_, ?_, ?_, ?_, ?_⟩
  · intro fields s h
    simp [deriveMessage, h]
  · intro fields dfields v h hv
    simp [deriveMessage, h, hv]
  · intro fields dfields h hv
    simp [deriveMessage, h, hv]
  · intro fields d m hd hns hno hm
    constructor <;> intro ht
    all_goals
      cases d with
      | str s => exact absurd rfl (hns s)
      | obj dfields => exact absurd rfl (hno dfields)
      | null => simp [deriveMessage, hd, hm, ht]
      | bool b => simp [deriveMessage, hd, hm, ht]
      | num n => simp [deriveMessage, hd, hm, ht]
      | arr xs => simp [deriveMessage, hd, hm, ht]
  · intro s h
    simp [deriveMessage, h]
  · simp [deriveMessage]
  · intro payload hno hns
    cases payload with
    | obj fields => exact absurd rfl (hno fields)
    | str s => exact absurd rfl (hns s)
    | null => simp [deriveMessage]
    | bool b => simp [deriveMessage]
    | num n => simp [deriveMessage]
    | arr xs => simp [deriveMessage]
  · intro u2
    rfl

/-- Witness for claim C8 as amended, at the payload and status the spec
names. -/
theorem claim_C8_message_derivation_witness :
    deriveMessage 403 (.obj [("detail", .obj [("message", .str "bad scope")])]) "u" =
      .str "bad scope" ∧
    handle_api_error 403 (.obj [("detail", .obj [("message", .str "bad scope")])]) "u" =
      ⟨.authorization, .str "bad scope", some 403⟩ :=
  ⟨(claim_C8_message_derivation 403 "u").2.1
      [("detail", .obj [("message", .str "bad scope")])]
      [("message", .str "bad scope")] (.str "bad scope") rfl rfl,
   (claim_C8_message_derivation 403 "u").2.2.2.2.2.2.2 "u"⟩

/-- When every attempt yields a response with the same forcelist, non-2xx
status, the retry loop consumes its whole budget and returns the final
response. -/
theorem runAttempts_all_forcelist (cfg : RetryConfig) (url : String)
    (wire : Nat → AttemptOutcome) (st : Nat) (cts : Nat → Option String)
    (bodies : Nat → Option (List Nat))
    (hwire : ∀ k, wire k = .response st (cts k) (bodies k))
    (hfl : st ∈ cfg.status_forcelist) (hns : isSuccessStatus st = false) :
    ∀ (fuel made : Nat) (lastExc : Option LastExc), made + fuel = cfg.attempts → 1 ≤ fuel →
      runAttempts cfg url wire made fuel lastExc =
        .returned cfg.attempts ⟨st, cts cfg.attempts, bodies cfg.attempts⟩ := by
  intro fuel
  induction fuel with
  | zero =>
    intro made lastExc hsum h1
    exact absurd h1 (by omega)
  | succ n ih =>
    intro made lastExc hsum _h1
    simp only [runAttempts, hwire (made + 1)]
    by_cases hlt : made + 1 < cfg.attempts
    · rw [if_pos ⟨hfl, hlt⟩, hns]
      simp only [Bool.false_eq_true, if_false]
      exact ih (made + 1) _ (by omega) (by omega)
    · have heq : made + 1 = cfg.attempts := by omega
      rw [if_neg (fun hc => hlt hc.2), heq]

/-- After the one-token fix of the transport invocation, the intended
pipeline does what the spec describes for retryable error statuses: a
policy with N ≥ 1 attempts and every attempt answering a forcelist,
non-2xx status outside the expected set makes exactly N HTTP attempts and
raises the classified error carrying that status. -/
theorem fixed_pipeline_retry_exhaustion :
    ∀ (s : ClientState) (ctx : SessionCtx) (providerResult : Option SessionCtx)
      (cfg : RetryConfig) (codec : Codec) (expected : List Nat) (stream : Bool)
      (url : String) (wire : Nat → AttemptOutcome) (st : Nat)
      (cts : Nat → Option String) (bodies : Nat → Option (List Nat)),
      s.is_closed = false →
      s.session_context = some ctx →
      ctx.token_info.truthy = true →
      1 ≤ cfg.attempts →
      st ∈ cfg.status_forcelist →
      isSuccessStatus st = false →
      st ∉ expected →
      (∀ k, wire k = .response st (cts k) (bodies k)) →
      (make_request_fixed s providerResult cfg codec expected stream url wire).httpAttempts =
          cfg.attempts ∧
      (make_request_fixed s providerResult cfg codec expected stream url wire).outcome =
        .err (handle_api_error st
          (errorBodyPayload codec ⟨st, cts cfg.attempts, bodies cfg.attempts⟩) url) ∧
      (handle_api_error st
          (errorBodyPayload codec ⟨st, cts cfg.attempts, bodies cfg.attempts⟩) url).status =
        some st ∧
      (handle_api_error st
          (errorBodyPayload codec ⟨st, cts cfg.attempts, bodies cfg.attempts⟩) url).cls =
        classifyStatus st := by
  intro s ctx providerResult cfg codec expected stream url wire st cts bodies
  intro hclosed hctx htok hA hfl hns hnexp hwire
  have htr : transport_request cfg url wire =
      .returned cfg.attempts ⟨st, cts cfg.attempts, bodies cfg.attempts⟩ :=
    runAttempts_all_forcelist cfg url wire st cts bodies hwire hfl hns cfg.attempts 0 none
      (by omega) hA
  have hauth : is_authenticated s = true := by
    simp [is_authenticated, hclosed, hctx, htok]
  have hgsc : get_session_context s true providerResult = (s, .ok (some ctx)) := by
    simp [get_session_context, hclosed, hauth, hctx]
  have hproc : process_response codec expected stream ⟨st, cts cfg.attempts, bodies cfg.attempts⟩ url =
      (.error (handle_api_error st
        (errorBodyPayload codec ⟨st, cts cfg.attempts, bodies cfg.attempts⟩) url),
       ⟨true, !stream || !(expected.contains st)⟩) := by
    simp [process_response, hnexp]
  refine ⟨?_, ?_, rfl, rfl⟩ <;>
    simp [make_request_fixed, hclosed, hgsc, htr, hproc]

/-- Even with the transport invocation fixed, the intended pipeline
returns a 2xx forcelist status on the first of two attempts as a decoded
success rather than retrying or raising, which is why the spec wording of
claim C1 needs its status conditions even as a statement of intent. -/
theorem fixed_pipeline_forcelist_success_short_circuit :
    make_request_fixed ⟨false, some ⟨.str "tok"⟩⟩ none
        { attempts := 2, status_forcelist := [200] } sampleCodec [200] false "u"
        (fun _ => .response 200 none (some [])) =
      ⟨⟨false, some ⟨.str "tok"⟩⟩, .ok (.payload (.obj [])), some ⟨true, true⟩, 1⟩ := rfl

/-- Claim C1: the code contradicts it on every input.  The transport
invocation at client.py line 183 passes json= to a transport whose
parameter is json_data, so _make_request raises the wrapped TypeError
after zero HTTP attempts instead of issuing N attempts and raising a
classified error; the same input on the one-token-fixed pipeline shows
the evident intent the claim describes: two attempts, then the
classified server error carrying 503. -/
theorem claim_C1_transport_invocation_bug :
    make_request sampleOpenState none ⟨2, 1 / 2, 60, [503]⟩ sampleCodec [200] false "u"
        (fun _ => .response 503 none (some [1])) =
      ⟨sampleOpenState, .err ⟨.mtapSdkError,
        .str ("Unexpected error during request transport: " ++ kwargTypeErrorText),
        none⟩, none, 0⟩ ∧
    make_request_fixed sampleOpenState none ⟨2, 1 / 2, 60, [503]⟩ sampleCodec [200] false "u"
        (fun _ => .response 503 none (some [1])) =
      ⟨sampleOpenState, .err ⟨.serverError, .str "body-text", some 503⟩, some ⟨true, true⟩, 2⟩ :=
  ⟨rfl, rfl⟩

end Mtap
